import Mathlib

/-!
Shallow embedding of the notebook
`notebooks/DrizzlePac/align_multiple_visits/align_multiple_visits.ipynb`.

The notebook is straight-line orchestration code: it queries the MAST
archive, downloads calibrated FLC exposures, flattens them into the
working directory, deletes one exposure, runs `tweakreg.TweakReg` three
times, runs `astrodrizzle.AstroDrizzle` once, and inspects the outputs.
Each executed library call is transcribed below as a `Call` value holding
its positional file-list argument and its keyword arguments; the
file-system steps of the download cell are embedded as pure functions on a
list of paths.
-/

namespace AlignNB

/-- A Python keyword-argument value as it appears literally in the
notebook's calls.  `pyFloat n d` denotes the literal n / 10 ^ d
(the only float in the notebook is `searchrad=4.0`). -/
inductive PyVal where
  | pyNone : PyVal
  | pyBool : Bool → PyVal
  | pyInt : Int → PyVal
  | pyFloat : Int → Nat → PyVal
  | pyStr : String → PyVal
  | pyStrList : List String → PyVal
  deriving DecidableEq

/-- One library invocation: the routine's dotted name, its positional
file-list argument, and its keyword arguments in source order. -/
structure Call where
  routine : String
  args : List String
  kwargs : List (String × PyVal)
  deriving DecidableEq

/-! ### The download cell's file-system steps

Paths are lists of components; the MAST download tree places each product
at `mastDownload/HST/<obs>/<base>`. -/

abbrev Path := List String

/-- Final component of a path (`os.path.basename`). -/
def lastComp (p : Path) : String := p.getLastD ""

/-- Suffix test on strings, via their character lists. -/
def strEndsWith (s suf : String) : Bool := suf.data.isSuffixOf s.data

/-- Matches the glob pattern `mastDownload/HST/*/` followed by `*flc.fits`
used by the notebook to locate the downloaded exposures. -/
def isMastFlc : Path → Bool
  | ["mastDownload", "HST", _obs, f] => strEndsWith f "flc.fits"
  | _ => false

/-- Whether a path lies under the `mastDownload` tree. -/
def inMastTree : Path → Bool
  | "mastDownload" :: _ => true
  | _ => false

/-- The copy loop: `shutil.copy(flc, os.path.basename(flc))` for every
downloaded FLC file, adding a flat working-directory copy. -/
def copyFlatten (fs : List Path) : List Path :=
  fs ++ (fs.filter isMastFlc).map (fun p => [lastComp p])

/-- The cleanup `shutil.rmtree('mastDownload')`. -/
def rmtreeMastDownload (fs : List Path) : List Path :=
  fs.filter (fun p => !inMastTree p)

/-- The deletion `os.remove(name)` of a working-directory file. -/
def osRemove (fs : List Path) (name : String) : List Path :=
  fs.filter (fun p => !(p == [name]))

/-- The glob `*flc.fits` over the flat working directory. -/
def globFlcCwd (fs : List Path) : List String :=
  (fs.filter (fun p => match p with
    | [f] => strEndsWith f "flc.fits"
    | _ => false)).map lastComp

/-- File-system state after the copy loop and the removal of the
`mastDownload` tree. -/
def afterDownloadMove (fs : List Path) : List Path :=
  rmtreeMastDownload (copyFlatten fs)

/-- File-system state after additionally deleting `j9irw4b3q_flc.fits`
(the second exposure of the W4 association). -/
def afterRemove (fs : List Path) : List Path :=
  osRemove (afterDownloadMove fs) "j9irw4b3q_flc.fits"

/-- The rebuilt input list `input_flcs = glob.glob('*flc.fits')`, as a
function of the downloaded file set. -/
def inputFlcsOf (fs : List Path) : List String := globFlcCwd (afterRemove fs)

/-- Modelled from the spec: the archive's product listing is external data,
not code of this repository.  The query names observations `j9irw3fwq`,
`j9irw4040` (the W4 dithered association with members `j9irw4b1q` and
`j9irw4b3q`) and `j9irw5kaq`; the FLC products downloaded for them are the
four calibrated exposure files below, each under its own observation
directory in the MAST download tree. -/
def mastDownloads : List Path :=
  [["mastDownload", "HST", "j9irw3fwq", "j9irw3fwq_flc.fits"],
   ["mastDownload", "HST", "j9irw4b1q", "j9irw4b1q_flc.fits"],
   ["mastDownload", "HST", "j9irw4b3q", "j9irw4b3q_flc.fits"],
   ["mastDownload", "HST", "j9irw5kaq", "j9irw5kaq_flc.fits"]]

/-- The notebook's `input_flcs` variable after the download cell. -/
def input_flcs : List String := inputFlcsOf mastDownloads

/-! ### The library calls, transcribed from the executed cells -/

/-- The archive query
`Observations.query_criteria(obstype='all', obs_collection='HST', obs_id=[...])`. -/
def queryCriteriaCall : Call :=
  { routine := "Observations.query_criteria"
    args := []
    kwargs := [("obstype", .pyStr "all"),
               ("obs_collection", .pyStr "HST"),
               ("obs_id", .pyStrList ["j9irw3fwq", "j9irw4040", "j9irw5kaq"])] }

/-- First executed alignment run (raised detection threshold). -/
def tweakregThreshOf (files : List String) : Call :=
  { routine := "tweakreg.TweakReg"
    args := files
    kwargs := [("threshold", .pyInt 4000),
               ("peakmax", .pyInt 70000),
               ("configobj", .pyNone),
               ("interactive", .pyBool false),
               ("shiftfile", .pyBool true),
               ("outshifts", .pyStr "shift_thresh.txt"),
               ("updatehdr", .pyBool false)] }

/-- Second executed alignment run (`fitgeometry='general'`, wider search). -/
def tweakregGeneralOf (files : List String) : Call :=
  { routine := "tweakreg.TweakReg"
    args := files
    kwargs := [("threshold", .pyInt 4000),
               ("searchrad", .pyFloat 40 1),
               ("peakmax", .pyInt 70000),
               ("fitgeometry", .pyStr "general"),
               ("configobj", .pyNone),
               ("interactive", .pyBool false),
               ("shiftfile", .pyBool true),
               ("outshifts", .pyStr "shift_general.txt"),
               ("updatehdr", .pyBool false)] }

/-- Final alignment run, writing the fitted WCS into the input headers. -/
def tweakregFinalOf (files : List String) : Call :=
  { routine := "tweakreg.TweakReg"
    args := files
    kwargs := [("threshold", .pyInt 4000),
               ("peakmax", .pyInt 70000),
               ("fitgeometry", .pyStr "general"),
               ("configobj", .pyNone),
               ("interactive", .pyBool false),
               ("shiftfile", .pyBool false),
               ("updatehdr", .pyBool true)] }

/-- The single combination run `astrodrizzle.AstroDrizzle(...)`. -/
def astroDrizzleOf (files : List String) : Call :=
  { routine := "astrodrizzle.AstroDrizzle"
    args := files
    kwargs := [("output", .pyStr "f606w_combined"),
               ("preserve", .pyBool false),
               ("driz_sep_bits", .pyStr "64,16"),
               ("driz_cr_corr", .pyBool true),
               ("final_bits", .pyStr "64,16"),
               ("clean", .pyBool false),
               ("configobj", .pyNone),
               ("build", .pyBool true)] }

/-- The alignment and combination invocations, in program order, as
functions of the input file list. -/
def analysisCallsOf (files : List String) : List Call :=
  [tweakregThreshOf files, tweakregGeneralOf files,
   tweakregFinalOf files, astroDrizzleOf files]

def tweakregThresh : Call := tweakregThreshOf input_flcs
def tweakregGeneral : Call := tweakregGeneralOf input_flcs
def tweakregFinal : Call := tweakregFinalOf input_flcs
def astroDrizzleCall : Call := astroDrizzleOf input_flcs

/-- The three executed `tweakreg.TweakReg` invocations in program order. -/
def tweakregCalls : List Call := [tweakregThresh, tweakregGeneral, tweakregFinal]

/-- Every executed library call of the notebook, in program order. -/
def allCalls : List Call := queryCriteriaCall :: analysisCallsOf input_flcs

/-! ### Spec-side option classes (for comparison with the code's calls) -/

/-- The option classes the spec lists for the combination routine: output
name, data-quality bit masks for the separate and final drizzle steps,
cosmic-ray detection/cleaning, single-file output, retention of
intermediate files.  Spec-side definition, written from the spec's words. -/
def specCombineOptionKeys : List String :=
  ["output", "driz_sep_bits", "final_bits", "driz_cr_corr", "build", "clean"]

/-- The tuning-option classes the spec lists for the alignment routine:
signal threshold, saturation cutoff, search radius, fit-geometry class,
persistence of shift results, header write-back.  Spec-side definition,
written from the spec's words. -/
def specAlignTuningKeys : List String :=
  ["threshold", "peakmax", "searchrad", "fitgeometry",
   "shiftfile", "outshifts", "updatehdr"]

/-! ### FITS extension reads performed by the inspection cells -/

/-- One `fits.open(file)[extname, extver].data` access. -/
structure FitsRead where
  file : String
  extname : String
  extver : Nat
  deriving DecidableEq

/-- Every FITS data-array access the notebook performs, in program order:
the aligned chip-2 science array of `j9irw4b1q_flc.fits` for the match
overlay, then the combined science and weight arrays of the drizzled
output. -/
def fitsReads : List FitsRead :=
  [{ file := "j9irw4b1q_flc.fits", extname := "SCI", extver := 1 },
   { file := "f606w_combined_drc.fits", extname := "SCI", extver := 1 },
   { file := "f606w_combined_drc.fits", extname := "WHT", extver := 1 }]

/-- The accesses the notebook makes to the combined output file. -/
def combinedReads : List FitsRead :=
  fitsReads.filter (fun a => a.file == "f606w_combined_drc.fits")

/-! ### Reading the shift-description file -/

/-- Column names the notebook assigns when reading a shift file with
`Table.read(..., format='ascii.no_header', names=[...])`. -/
def shiftColNames : List String :=
  ["file", "dx", "dy", "rot", "scale", "xrms", "yrms"]

/-- Split of a text row into its non-empty space-separated fields, as the
header-less ascii reader does. -/
def splitFields (s : List Char) : List (List Char) :=
  (s.splitOn ' ').filter (fun f => !f.isEmpty)

/-- Reading one row of a shift file with the notebook's column names: the
row must carry exactly one field per name; fields are bound to the names
positionally. -/
def readShiftRow (s : List Char) : Option (List (String × List Char)) :=
  let fs := splitFields s
  if fs.length = shiftColNames.length then some (shiftColNames.zip fs) else none

/-- Modelled from the spec: the shift-description file is written by the
external alignment routine, not by repository code.  Per the spec each row
lists, for one input image, the filename, the horizontal and vertical
offsets, rotation, scale, and the fit-residual statistic of each axis, in
that order. -/
structure ShiftRow where
  file : List Char
  dx : List Char
  dy : List Char
  rot : List Char
  scale : List Char
  xrms : List Char
  yrms : List Char

/-- The seven fields of a shift row in file order. -/
def ShiftRow.fields (r : ShiftRow) : List (List Char) :=
  [r.file, r.dx, r.dy, r.rot, r.scale, r.xrms, r.yrms]

/-- Modelled from the spec: serialisation of one shift-file row, fields
separated by single spaces. -/
def writeShiftRow (r : ShiftRow) : List Char := [' '].intercalate r.fields

/-- A sample shift-file row, for concrete evaluation. -/
def sampleShiftRow : ShiftRow :=
  { file := "j9irw3fwq_flc.fits".data
    dx := "0.12".data
    dy := "-0.34".data
    rot := "0.001".data
    scale := "1.00001".data
    xrms := "0.05".data
    yrms := "0.06".data }

/-! ### Reading the match-catalog file -/

/-- Numeric value of a decimal digit character. -/
def digitVal (c : Char) : Option Nat :=
  if '0' ≤ c ∧ c ≤ '9' then some (c.toNat - '0'.toNat) else none

/-- Value of a run of decimal digits, most significant first. -/
def readDigits : List Char → Nat → Option Nat
  | [], acc => some acc
  | c :: cs, acc =>
    match digitVal c with
    | some d => readDigits cs (10 * acc + d)
    | none => none

/-- Default column naming of the astropy ascii reader on a header-less
table: the N-th column is named by `col` followed by the decimal
numeral N. -/
def astropyColIndex (k : String) : Option Nat :=
  match k.data with
  | 'c' :: 'o' :: 'l' :: d :: ds => readDigits (d :: ds) 0
  | _ => none

/-- Access a row's entry by astropy default column name: `colN` denotes
the N-th field, at index N - 1. -/
def byName (r : List PyVal) (k : String) : Option PyVal :=
  match astropyColIndex k with
  | some n => r.get? (n - 1)
  | none => none

/-- The notebook's chip filter `match_tab[match_tab['col15'] == 1]`. -/
def matchTabChip2 (t : List (List PyVal)) : List (List PyVal) :=
  t.filter (fun r => byName r "col15" == some (.pyInt 1))

/-- The notebook's coordinate extraction
`match_tab_chip2['col11'], match_tab_chip2['col12']`. -/
def chip2Coords (t : List (List PyVal)) : List (Option PyVal × Option PyVal) :=
  (matchTabChip2 t).map (fun r => (byName r "col11", byName r "col12"))

/-- Modelled from the spec: in a match-catalog row the image/detector
identifier is the 15th column; value 1 marks a matched source on detector
chip 2 (science extension 1).  The file itself is written by the external
alignment routine. -/
def onChip2 (r : List PyVal) : Bool := r.get? 14 == some (.pyInt 1)

/-! ### Delivered parameters and a whole-run semantics -/

/-- Modelled from the spec and the library interface: the external
routines draw parameter values from leftover `.cfg` configuration files in
the environment unless the call passes `configobj=None`, in which case
only built-in defaults and the explicit keyword arguments apply.  `env` is
the parameter assignment induced by whatever configuration files exist
before the run. -/
def deliveredKwargs (env : List (String × PyVal)) (c : Call) :
    List (String × PyVal) :=
  if c.kwargs.lookup "configobj" = some PyVal.pyNone then c.kwargs
  else env.filter (fun e => (c.kwargs.lookup e.1).isNone) ++ c.kwargs

/-- Whether the remote archive service is reachable during a run. -/
structure ArchiveEnv where
  reachable : Bool

/-- Modelled from the spec: the remote query raises when the service is
unreachable and returns the archive's product listing when it is; the
repository wraps no handling around it. -/
def runQueryCriteria (env : ArchiveEnv) : Except String (List Path) :=
  if env.reachable then Except.ok mastDownloads
  else Except.error "service unreachable"

/-- One whole run of the notebook.  The first component counts query
attempts — always exactly one: a failure propagates with no retry,
recovery or backoff; on success the analysis calls are made on the
flattened input list. -/
def runNotebook (env : ArchiveEnv) : Nat × Except String (List Call) :=
  match runQueryCriteria env with
  | Except.error e => (1, Except.error e)
  | Except.ok fs =>
    (1, Except.ok (queryCriteriaCall :: analysisCallsOf (inputFlcsOf fs)))

/-! ## Helper lemmas -/

/-- A string ending in `flc.fits` is not the directory name
`mastDownload`. -/
theorem strEndsWith_flc_ne_mast {f : String}
    (h : strEndsWith f "flc.fits" = true) : f ≠ "mastDownload" := by
  intro hf
  subst hf
  exact absurd h (by decide)

/-- Shape of a path matched by the download glob. -/
theorem isMastFlc_shape {p : Path} (h : isMastFlc p = true) :
    ∃ x f, p = ["mastDownload", "HST", x, f] ∧ strEndsWith f "flc.fits" = true := by
  unfold isMastFlc at h
  split at h
  next x f => exact ⟨x, f, rfl, h⟩
  next => exact absurd h (by simp)

/-- The astropy name `col15` denotes the 15th column, at index 14. -/
theorem byName_col15 (r : List PyVal) : byName r "col15" = r.get? 14 := by
  have h : astropyColIndex "col15" = some 15 := by decide
  unfold byName
  rw [h]

/-- The astropy name `col11` denotes the 11th column, at index 10. -/
theorem byName_col11 (r : List PyVal) : byName r "col11" = r.get? 10 := by
  have h : astropyColIndex "col11" = some 11 := by decide
  unfold byName
  rw [h]

/-- The astropy name `col12` denotes the 12th column, at index 11. -/
theorem byName_col12 (r : List PyVal) : byName r "col12" = r.get? 11 := by
  have h : astropyColIndex "col12" = some 12 := by decide
  unfold byName
  rw [h]

/-! ## Claim theorems -/

/-- C1 counterexample: the combination call also sets `preserve=False`, a
behavioural option outside the classes the spec lists, so the claim as
stated fails on the code. -/
theorem C1_counterexample :
    (astroDrizzleCall.kwargs.all fun kv => specCombineOptionKeys.contains kv.1)
        = false ∧
      astroDrizzleCall.kwargs.lookup "preserve" = some (PyVal.pyBool false) := by
  decide

/-- C1 (amended): the combination routine is invoked exactly once, on the
aligned input file list, with the spec's listed options at the claimed
values — output name `f606w_combined`, bit mask `64,16` for both the
separate- and final-drizzle steps, cosmic-ray cleaning enabled, a single
built output file, intermediate files retained — plus exactly two further
options: `preserve=False` and `configobj=None`. -/
theorem C1_combine_invocation :
    (allCalls.filter fun c => c.routine == "astrodrizzle.AstroDrizzle")
        = [astroDrizzleCall] ∧
      astroDrizzleCall.args = input_flcs ∧
      astroDrizzleCall.kwargs =
        [("output", .pyStr "f606w_combined"), ("preserve", .pyBool false),
         ("driz_sep_bits", .pyStr "64,16"), ("driz_cr_corr", .pyBool true),
         ("final_bits", .pyStr "64,16"), ("clean", .pyBool false),
         ("configobj", .pyNone), ("build", .pyBool true)] := by
  decide

/-- C2 counterexample: the first alignment call also passes
`interactive=False`, a keyword outside the listed tuning-option classes,
so the claim as stated fails on the code. -/
theorem C2_counterexample :
    ((tweakregThresh.kwargs.map Prod.fst).all specAlignTuningKeys.contains)
        = false ∧
      tweakregThresh.kwargs.lookup "interactive" = some (PyVal.pyBool false) := by
  decide

/-- C2 (amended): every alignment invocation passes the input file list,
and its keywords stay inside the spec's listed tuning-option classes
except for exactly two fixed control options present in every call:
`configobj=None` and `interactive=False`. -/
theorem C2_align_invocations :
    (allCalls.filter fun c => c.routine == "tweakreg.TweakReg") = tweakregCalls ∧
      tweakregCalls.all (fun c =>
        c.args == input_flcs &&
        (c.kwargs.map Prod.fst).all (fun k =>
          specAlignTuningKeys.contains k || k == "configobj" || k == "interactive") &&
        c.kwargs.lookup "configobj" == some PyVal.pyNone &&
        c.kwargs.lookup "interactive" == some (PyVal.pyBool false)) = true := by
  decide

/-- C3: the two exploratory alignment runs pass `updatehdr=False`, and the
final run — last in program order — is the only invocation passing
`updatehdr=True`. -/
theorem C3_updatehdr_only_final :
    tweakregCalls.map (fun c => c.kwargs.lookup "updatehdr") =
        [some (PyVal.pyBool false), some (PyVal.pyBool false),
         some (PyVal.pyBool true)] ∧
      (tweakregCalls.filter fun c =>
          c.kwargs.lookup "updatehdr" == some (PyVal.pyBool true))
        = [tweakregFinal] ∧
      tweakregCalls.getLast? = some tweakregFinal := by
  decide

/-- C4: a shift-file row serialising the seven per-image fields, each
non-empty and space-free, is parsed by the notebook's reader into exactly
seven fields bound to the names file, dx, dy, rot, scale, xrms, yrms in
that order. -/
theorem C4_shift_row_parse (r : ShiftRow)
    (h : ∀ f ∈ r.fields, f ≠ [] ∧ ' ' ∉ f) :
    readShiftRow (writeShiftRow r) = some (shiftColNames.zip r.fields) := by
  have hsplit : (writeShiftRow r).splitOn ' ' = r.fields := by
    refine List.splitOn_intercalate r.fields ' ' (fun l hl => (h l hl).2) ?_
    simp [ShiftRow.fields]
  have hfilter : r.fields.filter (fun f => !f.isEmpty) = r.fields := by
    refine List.filter_eq_self.mpr ?_
    intro a ha
    simpa using (h a ha).1
  unfold readShiftRow splitFields
  rw [hsplit, hfilter]
  rfl

/-- C4 witness: a concrete row round-trips through the reader. -/
theorem C4_shift_row_parse_witness :
    readShiftRow (writeShiftRow sampleShiftRow) =
      some (shiftColNames.zip sampleShiftRow.fields) :=
  C4_shift_row_parse sampleShiftRow (by decide)

/-- C5: after the copy loop and the removal of the download tree, every
downloaded FLC file from `mastDownload/HST/<obs>/` exists under its base
filename in the flat working directory, and no path under the nested
download tree remains. -/
theorem C5_download_flattened (fs : List Path) (p : Path)
    (hp : p ∈ fs) (hm : isMastFlc p = true) :
    [lastComp p] ∈ afterDownloadMove fs ∧
      ∀ q ∈ afterDownloadMove fs, inMastTree q = false := by
  obtain ⟨x, f, rfl, hf⟩ := isMastFlc_shape hm
  have hne : f ≠ "mastDownload" := strEndsWith_flc_ne_mast hf
  constructor
  · show [f] ∈ afterDownloadMove fs
    have hmem : [f] ∈ copyFlatten fs := by
      unfold copyFlatten
      refine List.mem_append_right _ ?_
      exact List.mem_map.mpr ⟨_, List.mem_filter.mpr ⟨hp, hm⟩, rfl⟩
    unfold afterDownloadMove rmtreeMastDownload
    refine List.mem_filter.mpr ⟨hmem, ?_⟩
    simp [inMastTree, hne]
  · intro q hq
    unfold afterDownloadMove rmtreeMastDownload at hq
    simpa using (List.mem_filter.mp hq).2

/-- C5 witness: instantiated at the modelled download set and its first
exposure file. -/
theorem C5_download_flattened_witness :
    ["j9irw3fwq_flc.fits"] ∈ afterDownloadMove mastDownloads ∧
      ∀ q ∈ afterDownloadMove mastDownloads, inMastTree q = false :=
  C5_download_flattened mastDownloads
    ["mastDownload", "HST", "j9irw3fwq", "j9irw3fwq_flc.fits"]
    (by decide) (by decide)

/-- C6: the notebook reads exactly the science and weight arrays, by
extension name (`SCI`, 1) then (`WHT`, 1), from the single combined output
file `f606w_combined_drc.fits`; the contribution map (`CTX`) is never
read. -/
theorem C6_combined_output_reads :
    combinedReads.map (fun a => (a.extname, a.extver)) = [("SCI", 1), ("WHT", 1)] ∧
      (combinedReads.map FitsRead.file).dedup = ["f606w_combined_drc.fits"] ∧
      fitsReads.all (fun a => a.extname != "CTX") = true := by
  decide

/-- C7: the chip filter keeps exactly the rows whose 15th column equals 1
(the detector-chip-2 marker) and reads their image-frame positions from
the 11th and 12th columns. -/
theorem C7_match_catalog_selection (t : List (List PyVal)) :
    matchTabChip2 t = t.filter onChip2 ∧
      chip2Coords t = (t.filter onChip2).map (fun r => (r.get? 10, r.get? 11)) := by
  have hfil : matchTabChip2 t = t.filter onChip2 := by
    unfold matchTabChip2 onChip2
    refine List.filter_congr ?_
    intro r _
    rw [byName_col15]
  refine ⟨hfil, ?_⟩
  unfold chip2Coords
  rw [hfil]
  refine List.map_congr_left ?_
  intro r _
  rw [byName_col11, byName_col12]

/-- C8: the archive query passes exactly the observation-id list and the
two fixed filter criteria, and an unreachable service makes the run fail
after a single query attempt, with no retry, recovery or backoff. -/
theorem C8_query_no_retry :
    queryCriteriaCall.kwargs.map Prod.fst = ["obstype", "obs_collection", "obs_id"] ∧
      queryCriteriaCall.kwargs.lookup "obstype" = some (PyVal.pyStr "all") ∧
      queryCriteriaCall.kwargs.lookup "obs_collection" = some (PyVal.pyStr "HST") ∧
      ∀ env : ArchiveEnv, env.reachable = false →
        runNotebook env = (1, Except.error "service unreachable") := by
  refine ⟨by decide, by decide, by decide, ?_⟩
  intro env h
  simp [runNotebook, runQueryCriteria, h]

/-- C8 witness: a run against an unreachable service. -/
theorem C8_query_no_retry_witness :
    runNotebook { reachable := false } = (1, Except.error "service unreachable") :=
  C8_query_no_retry.2.2.2 { reachable := false } rfl

/-- C9: the deletion of `j9irw4b3q_flc.fits` — present in the working
directory after the download step — happens before the input list is
rebuilt, so the list holds exactly the three remaining exposures and every
alignment and combination invocation operates on them, never on the
deleted file. -/
theorem C9_removed_exposure :
    ["j9irw4b3q_flc.fits"] ∈ afterDownloadMove mastDownloads ∧
      input_flcs = ["j9irw3fwq_flc.fits", "j9irw4b1q_flc.fits",
        "j9irw5kaq_flc.fits"] ∧
      input_flcs.length = 3 ∧
      (analysisCallsOf input_flcs).all (fun c =>
        c.args == input_flcs && !(c.args.contains "j9irw4b3q_flc.fits")) = true := by
  decide

/-- C10: every alignment and combination invocation passes
`configobj=None`, so the keyword set delivered to the external routine is
the same under any two configuration-file environments: leftover `.cfg`
files never influence a call. -/
theorem C10_configobj_isolation :
    (∀ c ∈ analysisCallsOf input_flcs,
        c.kwargs.lookup "configobj" = some PyVal.pyNone) ∧
      ∀ (e1 e2 : List (String × PyVal)) (c : Call),
        c ∈ analysisCallsOf input_flcs →
          deliveredKwargs e1 c = deliveredKwargs e2 c := by
  have hall : ∀ c ∈ analysisCallsOf input_flcs,
      c.kwargs.lookup "configobj" = some PyVal.pyNone := by decide
  refine ⟨hall, ?_⟩
  intro e1 e2 c hc
  simp [deliveredKwargs, hall c hc]

/-- C10 witness: two different environments deliver identical keywords to
the first alignment call. -/
theorem C10_configobj_isolation_witness :
    deliveredKwargs [("threshold", PyVal.pyInt 9)] tweakregThresh =
      deliveredKwargs [] tweakregThresh :=
  C10_configobj_isolation.2 [("threshold", PyVal.pyInt 9)] [] tweakregThresh
    (by decide)

end AlignNB
